import Mathlib

/-!
Verification of the de-duplication / queuing / rate-limited orchestration core
of the CE395 backend (src/index.js variant with rate limiting, and the
TypeScript sensor-ingest route).

The JavaScript source is shallowly embedded: asynchronous effects become
explicit state passing, wall-clock time (`Date.now()`) becomes explicit `Nat`
millisecond parameters, and fallible calls return `Except`.  External
collaborators (the OpenAI transport, the LINE transport, the Prisma store) are
modelled at their interface boundary, as the spec prescribes.
-/

namespace CE395

/-- Error object thrown by the OpenAI SDK; the retry loop only inspects
`err?.status` (`429` marks throttling). -/
structure JsError where
  status : Option Nat
deriving DecidableEq, Repr

/-- Outcome of one `askOpenAI` attempt made by the retry loop. -/
inductive AttemptOut where
  | ok (v : String)
  | err (e : JsError)
deriving DecidableEq, Repr

/-- One scheduled `safeAskOpenAI` call.  `submit` is the time the thunk is
appended to the chain; `outcomes i` is what the i-th remote attempt does;
`durations i` is how long that attempt takes; `backoffs i` is the delay slept
before retry `i+1` (the source computes it from the server retry-after hint or
capped exponential backoff with random jitter — its value never affects
control flow, only elapsed time, so it is environment-supplied here). -/
structure Job where
  submit : Nat
  outcomes : Nat → AttemptOut
  durations : Nat → Nat
  backoffs : Nat → Nat

/-- The retry loop of `safeAskOpenAI` (src/index.js lines 141-155):

    let attempt = 0;
    for (;;) {
      try { const out = await askOpenAI(prompt); lastCall = Date.now(); return out; }
      catch (err) {
        if (err?.status !== 429 || attempt >= OPENAI_MAX_RETRIES) throw err;
        attempt++; await delay(backoff);
      }
    }

`fuel` is `maxRetries - attempt` (so `fuel = 0` is `attempt >= maxRetries`),
`i` is the current attempt index, `tNow` the current time.  Returns the
result, the completion time, and the total number of attempts performed. -/
def runAttempts (j : Job) : Nat → Nat → Nat → Except JsError String × Nat × Nat
  | 0, i, tNow =>
    match j.outcomes i with
    | .ok v => (.ok v, tNow + j.durations i, i + 1)
    | .err e => (.error e, tNow + j.durations i, i + 1)
  | fuel + 1, i, tNow =>
    match j.outcomes i with
    | .ok v => (.ok v, tNow + j.durations i, i + 1)
    | .err e =>
      if e.status = some 429 then
        runAttempts j fuel (i + 1) (tNow + j.durations i + j.backoffs i)
      else (.error e, tNow + j.durations i, i + 1)

/-- The retry loop run from attempt 0 (time is irrelevant for counting
attempts; started at 0). -/
def executeRetry (j : Job) (maxRetries : Nat) : Except JsError String × Nat × Nat :=
  runAttempts j maxRetries 0 0

/-- Claim C5.  (a) A thunk that throws a throttling (429) error on its first
two attempts and then succeeds, run with `maxRetries ≥ 2`, yields the success
value after exactly 3 attempts.  (b) An error not classified as throttling
propagates immediately after exactly 1 attempt.  (c) When every attempt up to
`maxRetries` throttles, the loop re-raises the error of the last attempt to
the caller, after `maxRetries + 1` attempts. -/
theorem retryPolicy_c5 :
    (∀ (j : Job) (maxRetries : Nat) (e0 e1 : JsError) (v : String),
      j.outcomes 0 = .err e0 → e0.status = some 429 →
      j.outcomes 1 = .err e1 → e1.status = some 429 →
      j.outcomes 2 = .ok v → 2 ≤ maxRetries →
      (executeRetry j maxRetries).1 = .ok v ∧ (executeRetry j maxRetries).2.2 = 3)
    ∧ (∀ (j : Job) (maxRetries : Nat) (e0 : JsError),
      j.outcomes 0 = .err e0 → e0.status ≠ some 429 →
      (executeRetry j maxRetries).1 = .error e0 ∧ (executeRetry j maxRetries).2.2 = 1)
    ∧ (∀ (j : Job) (maxRetries : Nat),
      (∀ i, i ≤ maxRetries → ∃ e : JsError, j.outcomes i = .err e ∧ e.status = some 429) →
      ∃ e : JsError, j.outcomes maxRetries = .err e ∧
        (executeRetry j maxRetries).1 = .error e ∧
        (executeRetry j maxRetries).2.2 = maxRetries + 1) := by
  refine ⟨?_, ?_, ?_⟩
  · intro j maxRetries e0 e1 v h0 hs0 h1 hs1 h2 hm
    obtain ⟨m, rfl⟩ : ∃ m, maxRetries = m + 2 := ⟨maxRetries - 2, by omega⟩
    cases m <;> simp [executeRetry, runAttempts, h0, hs0, h1, hs1, h2]
  · intro j maxRetries e0 h0 hs0
    cases maxRetries <;> simp [executeRetry, runAttempts, h0, hs0]
  · intro j maxRetries h
    have key : ∀ (fuel i t : Nat),
        (∀ k, k ≤ fuel → ∃ e : JsError, j.outcomes (i + k) = .err e ∧ e.status = some 429) →
        ∃ e : JsError, j.outcomes (i + fuel) = .err e ∧
          (runAttempts j fuel i t).1 = .error e ∧
          (runAttempts j fuel i t).2.2 = i + fuel + 1 := by
      intro fuel
      induction fuel with
      | zero =>
        intro i t hall
        obtain ⟨e, he, hs⟩ := hall 0 (Nat.le_refl 0)
        simp only [Nat.add_zero] at he
        exact ⟨e, by simpa using he, by simp [runAttempts, he], by simp [runAttempts, he]⟩
      | succ f ih =>
        intro i t hall
        obtain ⟨e, he, hs⟩ := hall 0 (Nat.zero_le _)
        simp only [Nat.add_zero] at he
        obtain ⟨e', he', hr1, hr2⟩ := ih (i + 1) (t + j.durations i + j.backoffs i)
          (fun k hk => by
            obtain ⟨e'', h1, h2⟩ := hall (k + 1) (by omega)
            exact ⟨e'', by rw [show i + 1 + k = i + (k + 1) by omega]; exact h1, h2⟩)
        have hunfold : runAttempts j (f + 1) i t =
            runAttempts j f (i + 1) (t + j.durations i + j.backoffs i) := by
          simp [runAttempts, he, hs]
        refine ⟨e', by rw [show i + (f + 1) = i + 1 + f by omega]; exact he', ?_, ?_⟩
        · rw [hunfold]; exact hr1
        · rw [hunfold, hr2]; omega
    have := key maxRetries 0 0 (fun k hk => by simpa using h k hk)
    simpa [executeRetry] using this

/-- Concrete thunk for the C5 witness: attempts 0 and 1 throttle, attempt 2
succeeds. -/
def w5job : Job :=
  ⟨0, fun i => if i < 2 then .err ⟨some 429⟩ else .ok "done", fun _ => 5, fun _ => 1000⟩

/-- Witness for C5: at the concrete thunk above with `maxRetries = 3`, the
loop returns the success value after exactly 3 attempts. -/
theorem retryPolicy_c5_witness :
    (executeRetry w5job 3).1 = .ok "done" ∧ (executeRetry w5job 3).2.2 = 3 :=
  retryPolicy_c5.1 w5job 3 ⟨some 429⟩ ⟨some 429⟩ "done" rfl rfl rfl rfl rfl (by decide)

/-- State of the one shared promise chain (src/index.js lines 33-35):
`now` is the settle time of the chain's current tail, `lastCall` the
`lastCall` module variable (time of the last successful `askOpenAI`), and
`broken` records whether the tail promise is rejected — `chain = chain.then(f)`
installs no rejection handler, so once the tail rejects with `e`, `f` is
skipped and the new tail rejects with `e` again. -/
structure QState where
  now : Nat
  lastCall : Nat
  broken : Option JsError
deriving DecidableEq, Repr

/-- What the caller of one `safeAskOpenAI` observes: the settled result of the
promise it received, and the time its thunk started running `askOpenAI`
(`none` when the thunk never ran because the chain was already rejected). -/
structure JobResult where
  result : Except JsError String
  started : Option Nat
deriving Repr

/-- `minGapMs = Math.ceil(60000 / Math.max(1, OPENAI_RPM))`
(src/index.js line 35), with the ceiling division written out on `Nat`. -/
def minGapMs (rpm : Nat) : Nat := (60000 + max 1 rpm - 1) / max 1 rpm

/-- One `safeAskOpenAI(prompt)` call (src/index.js lines 134-157).  When the
chain is intact, the thunk runs once the previous link settles and the caller
submits (`ready`), sleeps `max 0 (lastCall + minGapMs - ready)`, so the first
attempt starts at `max ready (lastCall + minGapMs)`; on success `lastCall`
becomes the completion time; on an ultimately failing call the chain tail
becomes rejected.  When the chain is already rejected, the thunk is skipped
and the caller receives the earlier error. -/
def runJob (maxRetries minGap : Nat) (j : Job) (s : QState) : JobResult × QState :=
  match s.broken with
  | some e => (⟨.error e, none⟩, s)
  | none =>
    let ready := max s.now j.submit
    let start := max ready (s.lastCall + minGap)
    match runAttempts j maxRetries 0 start with
    | (.ok v, tEnd, _) => (⟨.ok v, some start⟩, ⟨tEnd, tEnd, none⟩)
    | (.error e, tEnd, _) => (⟨.error e, some start⟩, ⟨tEnd, s.lastCall, some e⟩)

/-- Sequential execution of the chain over a list of submitted calls, in
submission order. -/
def runQueue (maxRetries minGap : Nat) : List Job → QState → List JobResult × QState
  | [], s => ([], s)
  | j :: js, s =>
    let r := runJob maxRetries minGap j s
    let rest := runQueue maxRetries minGap js r.2
    (r.1 :: rest.1, rest.2)

/-- Start times of the calls that actually ran, in submission order. -/
def startTimes (rs : List JobResult) : List Nat := rs.filterMap JobResult.started

/-- An attempt sequence never finishes before it starts. -/
theorem runAttempts_start_le (j : Job) :
    ∀ (fuel i t : Nat), t ≤ (runAttempts j fuel i t).2.1 := by
  intro fuel
  induction fuel with
  | zero =>
    intro i t
    cases h : j.outcomes i <;> simp [runAttempts, h]
  | succ f ih =>
    intro i t
    cases h : j.outcomes i with
    | ok v => simp [runAttempts, h]
    | err e =>
      by_cases hs : e.status = some 429
      · have := ih (i + 1) (t + j.durations i + j.backoffs i)
        simp only [runAttempts, h, hs, if_pos]
        omega
      · simp [runAttempts, h, hs]

/-- Once the chain tail is rejected with `e`, every subsequently submitted
thunk is skipped: its caller receives `e` and no start time exists. -/
theorem runQueue_broken (maxRetries minGap : Nat) :
    ∀ (js : List Job) (s : QState) (e : JsError), s.broken = some e →
      runQueue maxRetries minGap js s = (js.map fun _ => ⟨.error e, none⟩, s) := by
  intro js
  induction js with
  | nil => intro s e h; simp [runQueue]
  | cons j js ih =>
    intro s e h
    simp only [runQueue, runJob, h, List.map_cons]
    rw [ih s e h]

/-- Skipped thunks record no start time. -/
theorem filterMap_started_skipped (e : JsError) (js : List Job) :
    List.filterMap JobResult.started
      (js.map fun _ => (⟨.error e, none⟩ : JobResult)) = [] := by
  induction js with
  | nil => simp
  | cons a l ihl => simp [ihl]

/-- Auxiliary invariant for the spacing proof: with an intact chain, all
recorded start times are at least `lastCall + minGap`, and consecutive start
times are at least `minGap` apart. -/
theorem runQueue_spacing (maxRetries minGap : Nat) :
    ∀ (js : List Job) (s : QState), s.broken = none →
      (∀ x ∈ startTimes (runQueue maxRetries minGap js s).1, s.lastCall + minGap ≤ x)
      ∧ List.Chain' (fun a b => a + minGap ≤ b)
          (startTimes (runQueue maxRetries minGap js s).1) := by
  intro js
  induction js with
  | nil => intro s h; simp [runQueue, startTimes]
  | cons j js ih =>
    intro s h
    simp only [runQueue, runJob, h]
    have hstart : s.lastCall + minGap ≤
        max (max s.now j.submit) (s.lastCall + minGap) := le_max_right _ _
    rcases hr : runAttempts j maxRetries 0 (max (max s.now j.submit) (s.lastCall + minGap))
      with ⟨res, tEnd, att⟩
    have htend : max (max s.now j.submit) (s.lastCall + minGap) ≤ tEnd := by
      have := runAttempts_start_le j maxRetries 0
        (max (max s.now j.submit) (s.lastCall + minGap))
      rw [hr] at this
      exact this
    cases res with
    | ok v =>
      obtain ⟨ihall, ihchain⟩ := ih ⟨tEnd, tEnd, none⟩ rfl
      simp only [startTimes, List.filterMap_cons] at *
      constructor
      · intro x hx
        rcases List.mem_cons.1 hx with rfl | hx
        · exact hstart
        · have := ihall x hx
          simp only at this
          omega
      · rw [List.chain'_cons']
        refine ⟨?_, ihchain⟩
        intro b hb
        have hmem : b ∈ startTimes (runQueue maxRetries minGap js ⟨tEnd, tEnd, none⟩).1 :=
          List.mem_of_mem_head? hb
        have := ihall b hmem
        simp only at this
        omega
    | error e =>
      rw [runQueue_broken maxRetries minGap js ⟨tEnd, s.lastCall, some e⟩ e rfl]
      simp only [startTimes, List.filterMap_cons]
      constructor
      · intro x hx
        rw [filterMap_started_skipped] at hx
        simp at hx
        omega
      · simp [filterMap_started_skipped]

/-- Claim C4.  For the limiter configured at `N ≥ 1` requests per minute,
`minGapMs N` is exactly `ceil(60000 / N)` (characterized as the least `g` with
`60000 ≤ N * g`), and for every list of submitted calls (any submission
pattern, bursts included) the calls that run do so in submission order with
consecutive start times at least `minGapMs N` milliseconds apart — in
particular the recorded start-time sequence is strictly increasing. -/
theorem rateLimiter_gap_c4 (N maxRetries : Nat) (jobs : List Job) (s : QState)
    (hN : 1 ≤ N) (hs : s.broken = none) :
    (60000 ≤ N * minGapMs N ∧ N * minGapMs N < 60000 + N)
    ∧ List.Chain' (fun a b => a + minGapMs N ≤ b)
        (startTimes (runQueue maxRetries (minGapMs N) jobs s).1)
    ∧ List.Chain' (· < ·) (startTimes (runQueue maxRetries (minGapMs N) jobs s).1) := by
  have hmax : max 1 N = N := Nat.max_eq_right hN
  have hceil : 60000 ≤ N * minGapMs N ∧ N * minGapMs N < 60000 + N := by
    have hdm := Nat.div_add_mod (60000 + N - 1) N
    have hlt : (60000 + N - 1) % N < N := Nat.mod_lt _ (by omega)
    simp only [minGapMs, hmax]
    exact ⟨by omega, by omega⟩
  have hgap1 : 1 ≤ minGapMs N := by
    by_contra hc
    push_neg at hc
    have h0 : minGapMs N = 0 := by omega
    have h1 := hceil.1
    rw [h0, Nat.mul_zero] at h1
    omega
  have hchain := (runQueue_spacing maxRetries (minGapMs N) jobs s hs).2
  refine ⟨hceil, hchain, ?_⟩
  exact hchain.imp fun {a b} hab => by omega

/-- Concrete jobs for the C4 witness: two immediately-submitted calls that
both succeed on the first attempt. -/
def w4job : Job := ⟨0, fun _ => .ok "a", fun _ => 100, fun _ => 0⟩

/-- Witness for C4: at two concrete burst-submitted successful calls with
`N = 2`, the recorded start times are at least `minGapMs 2 = 30000` ms
apart. -/
theorem rateLimiter_gap_c4_witness :
    List.Chain' (fun a b => a + minGapMs 2 ≤ b)
      (startTimes (runQueue 3 (minGapMs 2) [w4job, w4job] ⟨0, 0, none⟩).1) :=
  (rateLimiter_gap_c4 2 3 [w4job, w4job] ⟨0, 0, none⟩ (by decide) rfl).2.1

/-- A queued call that fails immediately with a non-throttling (500) error. -/
def c1failJob : Job := ⟨0, fun _ => .err ⟨some 500⟩, fun _ => 10, fun _ => 0⟩

/-- A queued call that would succeed on its first attempt. -/
def c1okJob : Job := ⟨0, fun _ => .ok "hello", fun _ => 10, fun _ => 0⟩

/-- Counterexample to claim C1 as stated: submit a failing call and then a
succeeding call.  The second thunk is never executed (no start time is
recorded) and its caller receives the first call's error, so the failure is
not surfaced only to the failing call's own caller and the queue does not
continue processing. -/
theorem chainBreak_counterexample_c1 :
    ((runQueue 3 30000 [c1failJob, c1okJob] ⟨0, 0, none⟩).1.map JobResult.started)
      = [some 30000, none]
    ∧ ((runQueue 3 30000 [c1failJob, c1okJob] ⟨0, 0, none⟩).1.map JobResult.result)
      = [.error ⟨some 500⟩, .error ⟨some 500⟩] := ⟨rfl, rfl⟩

/-- Claim C1, amended to what the code does.  A failing queued call does
surface its own error to its own caller, but — because
`chain = chain.then(...)` installs no rejection handler — the chain is
permanently broken: every subsequently submitted thunk is skipped (never
executed, no start time) and its caller receives the earlier call's error. -/
theorem chainBreak_amended_c1 :
    (∀ (maxRetries minGap : Nat) (j : Job) (js : List Job) (s : QState) (e : JsError),
      s.broken = none →
      (runJob maxRetries minGap j s).1.result = .error e →
      (runQueue maxRetries minGap (j :: js) s).1 =
        (runJob maxRetries minGap j s).1 :: (js.map fun _ => ⟨.error e, none⟩))
    ∧ (∀ (maxRetries minGap : Nat) (js : List Job) (s : QState) (e : JsError),
      s.broken = some e →
      runQueue maxRetries minGap js s = (js.map fun _ => ⟨.error e, none⟩, s)) := by
  constructor
  · intro maxRetries minGap j js s e hb herr
    simp only [runQueue]
    simp only [runJob, hb] at herr ⊢
    rcases hra : runAttempts j maxRetries 0
      (max (max s.now j.submit) (s.lastCall + minGap)) with ⟨res, tEnd, att⟩
    rw [hra] at herr
    cases res with
    | ok v => exact Except.noConfusion herr
    | error e' =>
      obtain rfl : e' = e := by
        have h2 : (Except.error e' : Except JsError String) = Except.error e := herr
        injection h2
      rw [runQueue_broken maxRetries minGap js ⟨tEnd, s.lastCall, some e'⟩ e' rfl]
  · exact fun maxRetries minGap js s e h => runQueue_broken maxRetries minGap js s e h

/-- Witness for the amended C1 at the concrete failing-then-succeeding pair:
the failing call's caller gets the error, the second thunk is skipped with the
same error. -/
theorem chainBreak_amended_c1_witness :
    (runQueue 3 30000 [c1failJob, c1okJob] ⟨0, 0, none⟩).1 =
      (runJob 3 30000 c1failJob ⟨0, 0, none⟩).1 ::
        [⟨.error ⟨some 500⟩, none⟩] :=
  chainBreak_amended_c1.1 3 30000 c1failJob [c1okJob] ⟨0, 0, none⟩ ⟨some 500⟩ rfl rfl

/-- Entry of the in-memory AI cache: insertion time and cached value
(src/index.js line 38: `key -> {t, val}`). -/
structure CacheEntry where
  t : Nat
  val : String
deriving DecidableEq, Repr

/-- The `aiCache` Map, as a key-indexed lookup. -/
def Cache : Type := String → Option CacheEntry

/-- The initially empty cache. -/
def emptyCache : Cache := fun _ => none

/-- JS `Math.round`: round half toward positive infinity,
`Math.round(x) = ⌊x + 1/2⌋`, written as the equivalent integer division
`(2·num + den) / (2·den)` on the reduced fraction so that it evaluates by
kernel reduction; `jsRound_eq_floor` below proves the equivalence. -/
def jsRound (x : Rat) : Int := (2 * x.num + (x.den : Int)) / ((2 * x.den : Nat) : Int)

/-- The integer-division form of `jsRound` is exactly `⌊x + 1/2⌋`. -/
theorem jsRound_eq_floor (x : Rat) : jsRound x = ⌊x + 1/2⌋ := by
  have hden : ((x.den : Rat)) ≠ 0 := by exact_mod_cast x.den_nz
  have hx : (x.num : Rat) = x * (x.den : Rat) := (div_eq_iff hden).mp (Rat.num_div_den x)
  have key : x + 1/2 = ((2 * x.num + (x.den : Int) : Int) : Rat) / ((2 * x.den : Nat) : Rat) := by
    rw [eq_div_iff (by positivity)]
    push_cast
    rw [hx]
    ring
  rw [jsRound, key, Rat.floor_intCast_div_natCast]

/-- `cacheKey` (src/index.js lines 40-41): question joined with the three
readings rounded to integers. -/
def cacheKey (q : String) (l t h : Rat) : String :=
  q ++ "|" ++ toString (jsRound l) ++ "|" ++ toString (jsRound t) ++ "|" ++ toString (jsRound h)

/-- `getCache` (src/index.js lines 42-50): absent is a miss; an entry strictly
older than the TTL is deleted and reported as a miss; otherwise the value is
returned.  `now` is `Date.now()` at the read. -/
def getCache (ttl now : Nat) (c : Cache) (k : String) : Option String × Cache :=
  match c k with
  | none => (none, c)
  | some v =>
    if ttl < now - v.t then (none, fun k' => if k' = k then none else c k')
    else (some v.val, c)

/-- `setCache` (src/index.js line 51): store the value with the current time. -/
def setCache (now : Nat) (c : Cache) (k : String) (val : String) : Cache :=
  fun k' => if k' = k then some ⟨now, val⟩ else c k'

/-- JS template interpolation of a numeric reading; this differs from JS
number formatting only on non-integral values, whose printed form no claim
inspects. -/
def numStr (x : Rat) : String := toString x

/-- The prompt template of `answerWithSensorAI` (src/index.js lines 161-168). -/
def buildPrompt (q : String) (l t h : Rat) : String :=
  "ข้อมูลเซ็นเซอร์:\n- ค่าแสง: " ++ numStr l ++ " lux\n- อุณหภูมิ: " ++ numStr t
    ++ " °C\n- ความชื้น: " ++ numStr h ++ " %\nคำถาม: \"" ++ q
    ++ "\"\nโปรดตอบเป็นภาษาไทยแบบสั้น กระชับ ชัดเจน"

/-- Settled result of one OpenAI SDK endpoint call, at the interface
boundary: generated text (`output_text`, which can be absent) or a thrown
error. -/
inductive RemoteOut where
  | ok (text : Option String)
  | err (e : JsError)
deriving DecidableEq, Repr

/-- The notice `askOpenAI` synthesizes locally when no API key is set. -/
def noKeyMsg : String := "❌ ยังไม่ได้ตั้งค่า OPENAI_API_KEY"

/-- The placeholder `askOpenAI` synthesizes when the endpoint returns no text. -/
def noTextMsg : String := "ไม่มีข้อความตอบกลับ"

/-- `askOpenAI` (src/index.js lines 91-119): with no API key configured it
resolves immediately with a locally synthesized notice (no remote call at
all); otherwise it calls the Responses API (`resp1`), falls back to the Chat
Completions API (`resp2`) when that throws, substitutes a synthesized
placeholder for absent output text, and re-throws the fallback's failure. -/
def askOpenAI (hasKey : Bool) (resp1 resp2 : RemoteOut) : Except JsError String :=
  if hasKey = false then .ok noKeyMsg
  else
    match resp1 with
    | .ok t => .ok (t.getD noTextMsg)
    | .err _ =>
      match resp2 with
      | .ok t => .ok (t.getD noTextMsg)
      | .err e2 => .error e2

/-- JS truthiness of `cached` in `if (cached) return cached;`
(src/index.js line 172): `null` and the empty string are falsy. -/
def cachedTruthy : Option String → Bool
  | none => false
  | some s => s != ""

/-- `answerWithSensorAI` (src/index.js lines 160-177).  `remote prompt n`
abstracts the settled result of `safeAskOpenAI(prompt)` for the `n`-th call
placed on the shared queue; `tRead` is `Date.now()` at the cache read and
`tWrite` at the cache write after the call resolves.  Returns the settled
result, the cache, and the updated remote-call count. -/
def answerWithSensorAI (ttl : Nat) (remote : String → Nat → Except JsError String)
    (tRead tWrite : Nat) (q : String) (l t h : Rat) (cache : Cache) (calls : Nat) :
    Except JsError String × Cache × Nat :=
  if cachedTruthy (getCache ttl tRead cache (cacheKey q l t h)).1 then
    (.ok ((getCache ttl tRead cache (cacheKey q l t h)).1.getD ""),
      (getCache ttl tRead cache (cacheKey q l t h)).2, calls)
  else
    match remote (buildPrompt q l t h) calls with
    | .error e => (.error e, (getCache ttl tRead cache (cacheKey q l t h)).2, calls + 1)
    | .ok out =>
      (.ok out,
        setCache tWrite (getCache ttl tRead cache (cacheKey q l t h)).2 (cacheKey q l t h) out,
        calls + 1)

/-- Claim C3, amended to what the code does.  When the call placed on the
queue ultimately fails, `answerWithSensorAI` propagates that exact failure to
its caller and stores nothing (the cache is exactly the lazily-purged read
result, with no write).  When the call resolves, the stored value is exactly
the resolution value — but `askOpenAI` can resolve with locally synthesized
strings rather than remote text: with no API key it resolves with a fixed
notice irrespective of the remote endpoints, and with an absent `output_text`
it resolves with a fixed placeholder, so such non-remote strings do get
cached. -/
theorem answerFailure_amended_c3 :
    (∀ (ttl : Nat) (remote : String → Nat → Except JsError String) (tR tW : Nat)
       (q : String) (l t h : Rat) (cache : Cache) (calls : Nat) (e : JsError),
      cachedTruthy (getCache ttl tR cache (cacheKey q l t h)).1 = false →
      remote (buildPrompt q l t h) calls = .error e →
      answerWithSensorAI ttl remote tR tW q l t h cache calls
        = (.error e, (getCache ttl tR cache (cacheKey q l t h)).2, calls + 1))
    ∧ (∀ (ttl : Nat) (remote : String → Nat → Except JsError String) (tR tW : Nat)
       (q : String) (l t h : Rat) (cache : Cache) (calls : Nat) (v : String),
      cachedTruthy (getCache ttl tR cache (cacheKey q l t h)).1 = false →
      remote (buildPrompt q l t h) calls = .ok v →
      answerWithSensorAI ttl remote tR tW q l t h cache calls
        = (.ok v,
            setCache tW (getCache ttl tR cache (cacheKey q l t h)).2 (cacheKey q l t h) v,
            calls + 1))
    ∧ (∀ resp1 resp2 : RemoteOut, askOpenAI false resp1 resp2 = .ok noKeyMsg)
    ∧ (∀ resp2 : RemoteOut, askOpenAI true (.ok none) resp2 = .ok noTextMsg) := by
  refine ⟨?_, ?_, ?_, ?_⟩
  · intro ttl remote tR tW q l t h cache calls e hmiss hrem
    unfold answerWithSensorAI
    rw [hmiss, hrem]
    simp
  · intro ttl remote tR tW q l t h cache calls v hmiss hrem
    unfold answerWithSensorAI
    rw [hmiss, hrem]
    simp
  · intro resp1 resp2; rfl
  · intro resp2; rfl

/-- Witness for the amended C3: at a concrete always-failing remote, the
error propagates and no value is written at any key of the (empty) cache. -/
theorem answerFailure_amended_c3_witness :
    answerWithSensorAI 120000 (fun _ _ => .error ⟨some 500⟩) 0 0 "Q" 1 2 3 emptyCache 0
      = (.error ⟨some 500⟩,
          (getCache 120000 0 emptyCache (cacheKey "Q" 1 2 3)).2, 1) :=
  answerFailure_amended_c3.1 120000 (fun _ _ => .error ⟨some 500⟩) 0 0 "Q" 1 2 3
    emptyCache 0 ⟨some 500⟩ rfl rfl

/-- The queued call when the API key is missing: `askOpenAI` ignores the
remote endpoints (which here only throw) and resolves with the synthesized
notice. -/
def c3remote : String → Nat → Except JsError String :=
  fun _ _ => askOpenAI false (.err ⟨some 500⟩) (.err ⟨some 500⟩)

/-- Counterexample to claim C3 as stated: with the API key unset, both remote
endpoints throw on every attempt — the remote completion service never
returns any value — yet `answerWithSensorAI` resolves successfully with the
locally synthesized notice and stores that notice in the cache.  So a value
never returned by the remote completion service is stored in the cache. -/
theorem cacheSynthesized_counterexample_c3 :
    (answerWithSensorAI 120000 c3remote 0 0 "Q" 1 2 3 emptyCache 0).1 = .ok noKeyMsg
    ∧ (answerWithSensorAI 120000 c3remote 0 0 "Q" 1 2 3 emptyCache 0).2.1
        (cacheKey "Q" 1 2 3) = some ⟨0, noKeyMsg⟩ := ⟨rfl, rfl⟩

/-- Claim C6, amended.  A second `answer()` call with the same question and
readings that round to the same integers, read within the TTL window of the
first call's cache write, returns the value cached by the first call with no
additional remote call — provided the cached answer is non-empty (the
truthiness check treats an empty cached answer as a miss).  A read of an
entry strictly older than the TTL is a miss and purges the entry. -/
theorem cacheHit_amended_c6 :
    (∀ (ttl : Nat) (remote : String → Nat → Except JsError String)
       (t1 t1' t2 t2' : Nat) (q : String) (l t h l' t' h' : Rat)
       (cache : Cache) (calls : Nat) (v : String),
      jsRound l' = jsRound l → jsRound t' = jsRound t → jsRound h' = jsRound h →
      cachedTruthy (getCache ttl t1 cache (cacheKey q l t h)).1 = false →
      remote (buildPrompt q l t h) calls = .ok v → v ≠ "" →
      t2 - t1' ≤ ttl →
      (answerWithSensorAI ttl remote t1 t1' q l t h cache calls).1 = .ok v
      ∧ answerWithSensorAI ttl remote t2 t2' q l' t' h'
          (answerWithSensorAI ttl remote t1 t1' q l t h cache calls).2.1
          (answerWithSensorAI ttl remote t1 t1' q l t h cache calls).2.2
        = (.ok v, (answerWithSensorAI ttl remote t1 t1' q l t h cache calls).2.1,
            (answerWithSensorAI ttl remote t1 t1' q l t h cache calls).2.2))
    ∧ (∀ (ttl now : Nat) (c : Cache) (k : String) (e : CacheEntry),
      c k = some e → ttl < now - e.t →
      (getCache ttl now c k).1 = none ∧ (getCache ttl now c k).2 k = none) := by
  constructor
  · intro ttl remote t1 t1' t2 t2' q l t h l' t' h' cache calls v hl ht hh hmiss hrem hne httl
    have hkey : cacheKey q l' t' h' = cacheKey q l t h := by
      unfold cacheKey; rw [hl, ht, hh]
    have h1 : answerWithSensorAI ttl remote t1 t1' q l t h cache calls
        = (.ok v,
            setCache t1' (getCache ttl t1 cache (cacheKey q l t h)).2 (cacheKey q l t h) v,
            calls + 1) := by
      unfold answerWithSensorAI
      rw [hmiss, hrem]
      simp
    have hget : getCache ttl t2
        (setCache t1' (getCache ttl t1 cache (cacheKey q l t h)).2 (cacheKey q l t h) v)
        (cacheKey q l t h)
        = (some v,
           setCache t1' (getCache ttl t1 cache (cacheKey q l t h)).2 (cacheKey q l t h) v) := by
      simp [getCache, setCache, Nat.not_lt.2 httl]
    refine ⟨by rw [h1], ?_⟩
    rw [h1]
    unfold answerWithSensorAI
    rw [hkey, hget]
    simp [cachedTruthy, hne]
  · intro ttl now c k e hc hstale
    unfold getCache
    rw [hc]
    simp [hstale]

/-- Witness for the amended C6: a concrete first call caches "คำตอบ", and a
second call 1000 ms later with readings that round identically returns the
cached value with no further remote call. -/
theorem cacheHit_amended_c6_witness :
    (answerWithSensorAI 120000 (fun _ _ => .ok "คำตอบ") 0 0 "Q" 1 2 3 emptyCache 0).1
      = .ok "คำตอบ"
    ∧ answerWithSensorAI 120000 (fun _ _ => .ok "คำตอบ") 1000 1000 "Q" (mkRat 6 5) 2 3
        (answerWithSensorAI 120000 (fun _ _ => .ok "คำตอบ") 0 0 "Q" 1 2 3 emptyCache 0).2.1
        (answerWithSensorAI 120000 (fun _ _ => .ok "คำตอบ") 0 0 "Q" 1 2 3 emptyCache 0).2.2
      = (.ok "คำตอบ",
          (answerWithSensorAI 120000 (fun _ _ => .ok "คำตอบ") 0 0 "Q" 1 2 3 emptyCache 0).2.1,
          (answerWithSensorAI 120000 (fun _ _ => .ok "คำตอบ") 0 0 "Q" 1 2 3 emptyCache 0).2.2) :=
  cacheHit_amended_c6.1 120000 (fun _ _ => .ok "คำตอบ") 0 0 1000 1000 "Q" 1 2 3
    (mkRat 6 5) 2 3 emptyCache 0 "คำตอบ" (by decide) rfl rfl rfl rfl
    (by decide) (by decide)

/-- A remote that answers the empty string on the first call and a different
text on the second. -/
def c6remote : String → Nat → Except JsError String :=
  fun _ n => if n = 0 then .ok "" else .ok "B"

/-- Counterexample to claim C6 as stated: the first call caches the empty
answer; the second identical call within the TTL does not return the cached
value and makes an additional remote call (the call counter reaches 2),
because `if (cached)` is false for the empty string. -/
theorem cacheHit_counterexample_c6 :
    (answerWithSensorAI 120000 c6remote 0 0 "Q" 1 2 3 emptyCache 0).1 = .ok ""
    ∧ (answerWithSensorAI 120000 c6remote 5 5 "Q" 1 2 3
        (answerWithSensorAI 120000 c6remote 0 0 "Q" 1 2 3 emptyCache 0).2.1
        (answerWithSensorAI 120000 c6remote 0 0 "Q" 1 2 3 emptyCache 0).2.2).1 = .ok "B"
    ∧ (answerWithSensorAI 120000 c6remote 5 5 "Q" 1 2 3
        (answerWithSensorAI 120000 c6remote 0 0 "Q" 1 2 3 emptyCache 0).2.1
        (answerWithSensorAI 120000 c6remote 0 0 "Q" 1 2 3 emptyCache 0).2.2).2.2 = 2 :=
  ⟨rfl, rfl, rfl⟩

/-- Claim C9.  A cached empty string that is still within the TTL is treated
as a miss by the truthiness check: a fresh remote call is performed and its
result is re-cached at the fingerprint. -/
theorem emptyCachedMiss_c9 (ttl : Nat) (remote : String → Nat → Except JsError String)
    (tR tW : Nat) (q : String) (l t h : Rat) (cache : Cache) (calls tIns : Nat)
    (v : String)
    (hc : cache (cacheKey q l t h) = some ⟨tIns, ""⟩)
    (hfresh : ¬ ttl < tR - tIns)
    (hrem : remote (buildPrompt q l t h) calls = .ok v) :
    answerWithSensorAI ttl remote tR tW q l t h cache calls
      = (.ok v, setCache tW cache (cacheKey q l t h) v, calls + 1) := by
  have hget : getCache ttl tR cache (cacheKey q l t h) = (some "", cache) := by
    unfold getCache
    rw [hc]
    simp [hfresh]
  unfold answerWithSensorAI
  rw [hget, hrem]
  simp [cachedTruthy]

/-- A cache holding the empty string at the fingerprint of question "Q" and
readings 1, 2, 3, inserted at time 0. -/
def c9cache : Cache := setCache 0 emptyCache (cacheKey "Q" 1 2 3) ""

/-- Witness for C9: at the concrete cache above, a read 5 ms later (well
within the TTL) still triggers the remote call and re-caches its answer. -/
theorem emptyCachedMiss_c9_witness :
    answerWithSensorAI 120000 (fun _ _ => .ok "fresh") 5 5 "Q" 1 2 3 c9cache 1
      = (.ok "fresh", setCache 5 c9cache (cacheKey "Q" 1 2 3) "fresh", 2) :=
  emptyCachedMiss_c9 120000 (fun _ _ => .ok "fresh") 5 5 "Q" 1 2 3 c9cache 1 0 "fresh"
    rfl (by decide) rfl

/-- The singleton sensor reading (`lastSensorData`), JS numbers as
rationals. -/
structure Reading where
  light : Rat
  temp : Rat
  humidity : Rat
deriving DecidableEq, Repr

/-- `getLightStatus` (src/index.js lines 61-70). -/
def getLightStatus (light : Rat) : String :=
  if 50000 < light then "สว่างจัดมาก ☀️"
  else if 10000 < light then "สว่างมาก🌤"
  else if 5000 < light then "สว่างปานกลาง 🌥"
  else if 1000 < light then "ค่อนข้างสว่าง 🌈"
  else if 500 < light then "แสงพอใช้"
  else if 100 < light then "แสงน้อย🌙"
  else if 10 < light then "มืดสลัว 🌑"
  else "มืดมากๆ 🕳️"

/-- `getTempStatus` (src/index.js lines 72-78). -/
def getTempStatus (temp : Rat) : String :=
  if 35 < temp then "อุณหภูมิร้อนมาก ⚠️"
  else if 30 ≤ temp then "อุณหภูมิร้อน 🔥"
  else if 25 ≤ temp then "อุณหภูมิอุ่นๆ 🌞"
  else if 20 ≤ temp then "อุณหภูมิพอดี 🌤"
  else "อุณหูมิเย็น ❄️"

/-- `getHumidityStatus` (src/index.js lines 80-88). -/
def getHumidityStatus (humidity : Rat) : String :=
  if 85 < humidity then "ชื้นมาก อากาศอึดอัด 🌧️"
  else if 70 < humidity then "อากาศชื้น เหนียวตัว 💦"
  else if 60 < humidity then "เริ่มชื้น 🌫️"
  else if 40 < humidity then "อากาศสบาย ✅"
  else if 30 < humidity then "ค่อนข้างแห้ง 💨"
  else if 20 < humidity then "แห้งมาก 🥵"
  else "อากาศแห้งมาก 🏜️"

/-- The direct status reply (`shortMsg`, src/index.js lines 246-249). -/
def buildShortMsg (r : Reading) : String :=
  "📊 สภาพอากาศล่าสุด :\n- ค่าแสง: " ++ numStr r.light ++ " lux ("
    ++ getLightStatus r.light ++ ")\n- อุณหภูมิ: " ++ numStr r.temp ++ " °C ("
    ++ getTempStatus r.temp ++ ")\n- ความชื้น: " ++ numStr r.humidity ++ " % ("
    ++ getHumidityStatus r.humidity ++ ")"

/-- Collapse every maximal run of whitespace into one space,
JS `replace(/\s+/g, " ")` restricted to ASCII whitespace; the flag records
whether the previous character was whitespace. -/
def collapseWsAux : Bool → List Char → List Char
  | _, [] => []
  | prevWs, c :: cs =>
    if c.isWhitespace then
      if prevWs then collapseWsAux true cs
      else ' ' :: collapseWsAux true cs
    else c :: collapseWsAux false cs

/-- JS `String.prototype.trim`, written over the character list so that it
evaluates by kernel reduction. -/
def jsTrim (s : String) : String :=
  String.mk (((s.data.dropWhile Char.isWhitespace).reverse.dropWhile Char.isWhitespace).reverse)

/-- `text.replace(/\s+/g, " ").trim()` (src/index.js line 259). -/
def normalizeWs (s : String) : String := jsTrim (String.mk (collapseWsAux false s.data))

/-- The fixed list of supported questions (src/index.js lines 251-257). -/
def presetQuestions : List String :=
  ["สภาพอากาศตอนนี้เป็นอย่างไร",
   "ตอนนี้ควรตากผ้าไหม",
   "ตอนนี้ควรพกร่มออกจากบ้านไหม",
   "ความเข้มของแสงตอนนี้เป็นอย่างไร",
   "ความชื้นตอนนี้เป็นอย่างไร"]

/-- A persisted `PendingReply` row. -/
structure PendingRec where
  id : Nat
  replyToken : String
  userId : String
  messageType : String
  text : String
deriving DecidableEq, Repr

/-- The persistent store: pending-reply rows, the next autoincrement id, and
the known users. -/
structure Store where
  pending : List PendingRec
  nextId : Nat
  users : List String
deriving DecidableEq, Repr

/-- User upsert (src/index.js lines 225-226): `findUnique` then `create` when
absent. -/
def upsertUser (st : Store) (uid : String) : Store :=
  if st.users.contains uid then st else ⟨st.pending, st.nextId, st.users ++ [uid]⟩

/-- `deletePendingReply` (src/index.js lines 200-206): one delete attempt; a
failure (`ok = false`) is caught and logged, leaving the store unchanged, and
is never retried. -/
def deletePendingReply (ok : Bool) (i : Nat) (st : Store) : Store :=
  if ok then ⟨st.pending.filter (fun r => r.id != i), st.nextId, st.users⟩ else st

/-- Observable effects of processing one event: whether a pending record was
created, how many delete attempts were made, how many orchestrator
(`answerWithSensorAI`) calls were made, the texts handed to `replyToUser`
(whose LINE transport and truncation are out-of-scope collaborators), and the
number of push-API deliveries. -/
structure PMTrace where
  created : Bool
  deleteCalls : Nat
  aiCalls : Nat
  replies : List String
  pushes : Nat
deriving DecidableEq, Repr

/-- One inbound chat event after the webhook filter. -/
structure ChatEvent where
  userId : String
  replyToken : String
  messageType : String
  rawText : String
deriving DecidableEq, Repr

/-- Environment of one `processMessageEvent` run: the current
`lastSensorData`, the settled result of the `answerWithSensorAI` call were it
made, the result of the push delivery were it made, and whether the pending
delete succeeds. -/
structure PMEnv where
  sensor : Option Reading
  ai : Except JsError String
  push : Except JsError Unit
  deleteOk : Bool

/-- Reply sent when no sensor data was ever ingested (src/index.js line 236). -/
def noSensorMsg : String := "❌ ยังไม่มีข้อมูลจากเซ็นเซอร์"

/-- The acknowledgment sent before asking the AI (src/index.js line 266). -/
def waitingMsg : String := "⏳ กำลังถาม AI..."

/-- The notice sent for an empty AI answer (src/index.js line 272). -/
def emptyAiMsg : String := "❌ คำตอบจาก AI ว่างเปล่า ไม่สามารถส่งข้อความได้"

/-- `processMessageEvent` (src/index.js lines 219-286): user upsert, dedup
check on the reply token, pending-record creation, then the four reply
branches.  `replyToUser` never throws (it catches internally), so replies are
recorded unconditionally; the `answerWithSensorAI` await and the raw
`axios.post` push-API call can throw, in which case the function exits with
that rejection and — having no try/catch — never reaches the final delete. -/
def processMessageEvent (env : PMEnv) (ev : ChatEvent) (st : Store) :
    Except JsError Unit × PMTrace × Store :=
  let text := if ev.messageType = "text" then jsTrim ev.rawText else ""
  let st1 := upsertUser st ev.userId
  match st1.pending.find? (fun r => r.replyToken == ev.replyToken) with
  | some _ => (.ok (), ⟨false, 0, 0, [], 0⟩, st1)
  | none =>
    let newRec : PendingRec :=
      ⟨st1.nextId, ev.replyToken, ev.userId, ev.messageType,
        if text = "" then "(ไม่มีข้อความ)" else text⟩
    let st2 : Store := ⟨st1.pending ++ [newRec], st1.nextId + 1, st1.users⟩
    match env.sensor with
    | none =>
      (.ok (), ⟨true, 1, 0, [noSensorMsg], 0⟩, deletePendingReply env.deleteOk newRec.id st2)
    | some r =>
      if ¬ normalizeWs text ∈ presetQuestions then
        (.ok (), ⟨true, 1, 0, [buildShortMsg r], 0⟩,
          deletePendingReply env.deleteOk newRec.id st2)
      else
        match env.ai with
        | .error e => (.error e, ⟨true, 0, 1, [waitingMsg], 0⟩, st2)
        | .ok aiText =>
          if jsTrim aiText = "" then
            (.ok (), ⟨true, 1, 1, [waitingMsg, emptyAiMsg], 0⟩,
              deletePendingReply env.deleteOk newRec.id st2)
          else
            match env.push with
            | .error e => (.error e, ⟨true, 0, 1, [waitingMsg], 0⟩, st2)
            | .ok _ =>
              (.ok (), ⟨true, 1, 1, [waitingMsg], 1⟩,
                deletePendingReply env.deleteOk newRec.id st2)

/-- User upsert does not touch the pending rows. -/
theorem upsertUser_pending (st : Store) (uid : String) :
    (upsertUser st uid).pending = st.pending := by
  unfold upsertUser
  split <;> rfl

/-- User upsert does not touch the id counter. -/
theorem upsertUser_nextId (st : Store) (uid : String) :
    (upsertUser st uid).nextId = st.nextId := by
  unfold upsertUser
  split <;> rfl

/-- Deleting a pending row can only remove rows, so distinctness of the
stored reply tokens is preserved. -/
theorem nodup_token_delete (ok : Bool) (i : Nat) (st : Store)
    (h : (st.pending.map PendingRec.replyToken).Nodup) :
    (((deletePendingReply ok i st).pending.map PendingRec.replyToken)).Nodup := by
  unfold deletePendingReply
  split
  · exact List.Nodup.sublist ((List.filter_sublist _).map _) h
  · exact h

/-- Appending a row whose token the dedup lookup did not find preserves
distinctness of the stored reply tokens. -/
theorem nodup_token_append (p : List PendingRec) (tk : String) (r : PendingRec)
    (hr : r.replyToken = tk)
    (h : (p.map PendingRec.replyToken).Nodup)
    (hfind : p.find? (fun x => x.replyToken == tk) = none) :
    ((p ++ [r]).map PendingRec.replyToken).Nodup := by
  rw [List.map_append]
  refine List.Nodup.append h (by simp) ?_
  intro a ha hb
  simp only [List.mem_map] at ha
  obtain ⟨x, hx, rfl⟩ := ha
  simp only [List.map_cons, List.map_nil, List.mem_singleton, hr] at hb
  have hnone := List.find?_eq_none.mp hfind x hx
  simp [hb] at hnone

/-- Shape of the pending rows after one processing step: unchanged
(dedup-rejected, or an exit before the delete), or with the newly created row
appended (delete skipped or failed), or that append filtered by one delete
attempt.  The appended row carries the event's reply token, and the appending
branches arise only when the dedup lookup found nothing. -/
theorem processMessageEvent_pending_cases (env : PMEnv) (ev : ChatEvent) (st : Store) :
    (processMessageEvent env ev st).2.2.pending = st.pending
    ∨ (st.pending.find? (fun x => x.replyToken == ev.replyToken) = none ∧
       ∃ r : PendingRec, r.replyToken = ev.replyToken ∧
        ((processMessageEvent env ev st).2.2.pending = st.pending ++ [r]
         ∨ ∃ i, (processMessageEvent env ev st).2.2.pending
             = (st.pending ++ [r]).filter (fun x => x.id != i))) := by
  simp only [processMessageEvent, upsertUser_pending, upsertUser_nextId]
  rcases hfind : st.pending.find? (fun r => r.replyToken == ev.replyToken) with _ | r0
  · rw [hfind]
    unfold deletePendingReply
    dsimp only
    repeat' split
    all_goals try exact Or.inr ⟨rfl, _, rfl, Or.inl rfl⟩
    all_goals try exact Or.inr ⟨rfl, _, rfl, Or.inr ⟨_, rfl⟩⟩
  · rw [hfind]
    exact Or.inl (upsertUser_pending st ev.userId)

/-- Every branch of `processMessageEvent` preserves distinctness of the
stored reply tokens. -/
theorem processMessageEvent_nodup (env : PMEnv) (ev : ChatEvent) (st : Store)
    (h : (st.pending.map PendingRec.replyToken).Nodup) :
    (((processMessageEvent env ev st).2.2.pending.map PendingRec.replyToken)).Nodup := by
  rcases processMessageEvent_pending_cases env ev st with heq | ⟨hfind, r, hr, heq | ⟨i, heq⟩⟩
  · rw [heq]; exact h
  · rw [heq]; exact nodup_token_append st.pending ev.replyToken r hr h hfind
  · rw [heq]
    exact List.Nodup.sublist ((List.filter_sublist _).map _)
      (nodup_token_append st.pending ev.replyToken r hr h hfind)

/-- Claim C7.  An event whose reply token already has a pending record is
rejected by the dedup check: the processor returns at once having created no
record, sent no reply, made no orchestrator call and attempted no delete (only
the user upsert, which never touches pending rows, happened); and a
processing step never duplicates a stored reply token, so at most one live
record exists per token. -/
theorem dedupSkip_c7 (env : PMEnv) (ev : ChatEvent) (st : Store) :
    ((st.pending.find? (fun r => r.replyToken == ev.replyToken)).isSome →
      processMessageEvent env ev st = (.ok (), ⟨false, 0, 0, [], 0⟩, upsertUser st ev.userId))
    ∧ ((st.pending.map PendingRec.replyToken).Nodup →
        (((processMessageEvent env ev st).2.2.pending.map PendingRec.replyToken)).Nodup) := by
  constructor
  · intro h
    obtain ⟨r, hr⟩ := Option.isSome_iff_exists.mp h
    simp only [processMessageEvent, upsertUser_pending, hr]
  · exact processMessageEvent_nodup env ev st

/-- A store already holding a pending record with token "T1". -/
def c7store : Store := ⟨[⟨0, "T1", "U1", "text", "hi"⟩], 1, ["U1"]⟩

/-- An event redelivered with the already-pending token "T1". -/
def c7event : ChatEvent := ⟨"U1", "T1", "text", "ตอนนี้ควรตากผ้าไหม"⟩

/-- An environment with a sensor reading present and a successful AI result,
which the dedup rejection must nevertheless never consult. -/
def c7env : PMEnv := ⟨some ⟨1000, 30, 50⟩, .ok "คำตอบ", .ok (), true⟩

/-- Witness for C7: at the concrete store above, the redelivered event is
skipped entirely. -/
theorem dedupSkip_c7_witness :
    processMessageEvent c7env c7event c7store
      = (.ok (), ⟨false, 0, 0, [], 0⟩, upsertUser c7store "U1") :=
  (dedupSkip_c7 c7env c7event c7store).1 rfl

/-- Claim C8.  When no sensor reading was ever ingested, an admitted event of
any kind gets exactly the "no data yet" reply, one clearing attempt of its
pending record (restoring the original pending rows when the delete
succeeds), and the orchestrator is never invoked. -/
theorem noSensorReply_c8 (env : PMEnv) (ev : ChatEvent) (st : Store)
    (hs : env.sensor = none)
    (habs : st.pending.find? (fun r => r.replyToken == ev.replyToken) = none)
    (hids : ∀ r ∈ st.pending, r.id < st.nextId) :
    (processMessageEvent env ev st).1 = .ok ()
    ∧ (processMessageEvent env ev st).2.1 = ⟨true, 1, 0, [noSensorMsg], 0⟩
    ∧ (env.deleteOk = true → (processMessageEvent env ev st).2.2.pending = st.pending) := by
  have h1 : st.pending.filter (fun r => r.id != st.nextId) = st.pending := by
    rw [List.filter_eq_self]
    intro a ha
    simpa using Nat.ne_of_lt (hids a ha)
  refine ⟨?_, ?_, ?_⟩
  · simp only [processMessageEvent, upsertUser_pending, upsertUser_nextId, habs, hs]
  · simp only [processMessageEvent, upsertUser_pending, upsertUser_nextId, habs, hs]
  · intro hok
    simp only [processMessageEvent, upsertUser_pending, upsertUser_nextId, habs, hs,
      deletePendingReply, hok, if_true, List.filter_append, h1]
    simp

/-- An environment with no sensor reading and a delete that succeeds. -/
def c8env : PMEnv := ⟨none, .ok "unused", .ok (), true⟩

/-- A recognized-question event for the C8 witness. -/
def c8event : ChatEvent := ⟨"U1", "T2", "text", "ตอนนี้ควรตากผ้าไหม"⟩

/-- Witness for C8: at an empty store with no reading ingested, the concrete
recognized-question event receives the "no data yet" reply, no orchestrator
call is made, and the pending record is cleared. -/
theorem noSensorReply_c8_witness :
    (processMessageEvent c8env c8event ⟨[], 0, []⟩).1 = .ok ()
    ∧ (processMessageEvent c8env c8event ⟨[], 0, []⟩).2.1 = ⟨true, 1, 0, [noSensorMsg], 0⟩
    ∧ (processMessageEvent c8env c8event ⟨[], 0, []⟩).2.2.pending = [] := by
  have h := noSensorReply_c8 c8env c8event ⟨[], 0, []⟩ rfl rfl (by simp)
  exact ⟨h.1, h.2.1, h.2.2 rfl⟩

/-- Claim C2, amended to what the code does.  A dedup-rejected event makes no
delete attempt; an admitted event that finishes normally (no-sensor reply,
direct status reply, empty-AI-answer notice, or successful AI push) makes
exactly one delete attempt, never retried even when it fails; but when the
run exits with a rejection — the orchestrator call or the push throwing — no
delete attempt is made at all and the pending record is left behind. -/
theorem pendingCleanup_amended_c2 (env : PMEnv) (ev : ChatEvent) (st : Store) :
    ((processMessageEvent env ev st).2.1.created = false →
      (processMessageEvent env ev st).2.1.deleteCalls = 0)
    ∧ ((processMessageEvent env ev st).2.1.created = true →
        (processMessageEvent env ev st).1 = .ok () →
        (processMessageEvent env ev st).2.1.deleteCalls = 1)
    ∧ (∀ e : JsError, (processMessageEvent env ev st).1 = .error e →
        (processMessageEvent env ev st).2.1.deleteCalls = 0) := by
  simp only [processMessageEvent]
  repeat' split
  all_goals simp

/-- Witness for the amended C2: at a concrete admitted event that finishes
normally (no sensor reading, reply sent, delete succeeds), exactly one delete
attempt is made. -/
theorem pendingCleanup_amended_c2_witness :
    (processMessageEvent c8env c8event ⟨[], 0, []⟩).2.1.deleteCalls = 1 :=
  (pendingCleanup_amended_c2 c8env c8event ⟨[], 0, []⟩).2.1 rfl rfl

/-- The environment of an admitted preset-question event whose orchestrator
call rejects. -/
def c2env : PMEnv := ⟨some ⟨1000, 30, 50⟩, .error ⟨some 500⟩, .ok (), true⟩

/-- An admitted recognized-question event. -/
def c2event : ChatEvent := ⟨"U1", "T1", "text", "ตอนนี้ควรตากผ้าไหม"⟩

/-- Counterexample to claim C2 as stated: the event is admitted (a pending
record is created), the orchestrator call fails, and the processor exits with
that rejection without a single delete attempt — the pending record is not
cleared in this branch, contradicting "deleted exactly once in every branch
including when the orchestrator call fails". -/
theorem pendingCleanup_counterexample_c2 :
    (processMessageEvent c2env c2event ⟨[], 0, []⟩).2.1.created = true
    ∧ (processMessageEvent c2env c2event ⟨[], 0, []⟩).2.1.deleteCalls = 0
    ∧ (processMessageEvent c2env c2event ⟨[], 0, []⟩).1 = .error ⟨some 500⟩
    ∧ (processMessageEvent c2env c2event ⟨[], 0, []⟩).2.2.pending
        = [⟨0, "T1", "U1", "text", "ตอนนี้ควรตากผ้าไหม"⟩] := ⟨rfl, rfl, rfl, rfl⟩

/-- A JSON value as it arrives in the ingest request body. -/
inductive JsValue where
  | num (q : Rat)
  | str (s : String)
  | boolean (b : Bool)
  | nullV
deriving DecidableEq, Repr

/-- A JS number: an ordinary value or NaN. -/
inductive JsNum where
  | nan
  | val (q : Rat)
deriving DecidableEq, Repr

/-- Accumulate decimal digits into a number; `none` on a non-digit or on the
empty list. -/
def digitsToNat (l : List Char) : Option Nat :=
  if l = [] then none
  else
    l.foldl
      (fun acc c =>
        match acc with
        | none => none
        | some n => if c.isDigit then some (n * 10 + (c.toNat - 48)) else none)
      (some 0)

/-- Split a character list at the first dot. -/
def splitAtDot : List Char → List Char × Option (List Char)
  | [] => ([], none)
  | c :: cs =>
    if c = '.' then ([], some cs)
    else
      let r := splitAtDot cs
      (c :: r.1, r.2)

/-- Unsigned decimal literal: integer digits with an optional fraction.
Modelled from the ECMAScript ToNumber string grammar restricted to plain
decimal notation (no exponent, hex or Infinity forms, which the analyzed
inputs never use). -/
def parseDecimal (l : List Char) : Option Rat :=
  match splitAtDot l with
  | (w, none) => (digitsToNat w).map (fun n => (n : Rat))
  | (w, some f) =>
    if w = [] ∧ f = [] then none
    else
      match (if w = [] then some 0 else digitsToNat w),
            (if f = [] then some 0 else digitsToNat f) with
      | some n, some m => some ((n : Rat) + (m : Rat) / ((10 ^ f.length : Nat) : Rat))
      | _, _ => none

/-- JS `Number(string)`: trimmed empty string is 0, otherwise an optionally
negated decimal literal, and anything else is NaN. -/
def jsStrToNumber (s : String) : JsNum :=
  let t := jsTrim s
  if t.data = [] then .val 0
  else
    match t.data with
    | '-' :: rest =>
      match parseDecimal rest with
      | some q => .val (-q)
      | none => .nan
    | l =>
      match parseDecimal l with
      | some q => .val q
      | none => .nan

/-- JS `Number(v)` on the body field values (the host coercion the route
applies, modelled at its interface). -/
def toNumber : JsValue → JsNum
  | .num q => .val q
  | .str s => jsStrToNumber s
  | .boolean b => .val (if b then 1 else 0)
  | .nullV => .val 0

/-- The ingest request body: each field is absent (`undefined`) or a JSON
value. -/
structure SensorBody where
  light : Option JsValue
  temp : Option JsValue
  humidity : Option JsValue
deriving DecidableEq, Repr

/-- The stored singleton reading after `Number` coercion
(src/backend/src/index.ts lines 197-201). -/
structure StoredReading where
  light : JsNum
  temp : JsNum
  humidity : JsNum
deriving DecidableEq, Repr

/-- Status the route responds with. -/
inductive SensorResponse where
  | ok200
  | err400
deriving DecidableEq, Repr

/-- `POST /sensor-data` (src/backend/src/index.ts lines 189-206): succeed and
overwrite the singleton with `Number` coercions exactly when all three fields
are defined; otherwise answer 400 and leave the singleton untouched.  No
range or numeric-type validation is performed. -/
def postSensorData (body : SensorBody) (last : Option StoredReading) :
    SensorResponse × Option StoredReading :=
  match body.light, body.temp, body.humidity with
  | some l, some t, some h => (.ok200, some ⟨toNumber l, toNumber t, toNumber h⟩)
  | _, _, _ => (.err400, last)

/-- Claim C10.  The ingest route responds 400 exactly when one of the three
fields is undefined, leaving the stored reading untouched; whenever all three
are present it reports success and overwrites the singleton with the raw
`Number` coercions, with no validation — in particular a non-numeric string
field is stored as NaN under a success response. -/
theorem sensorIngest_c10 (last : Option StoredReading) :
    (∀ l t h : JsValue,
      postSensorData ⟨some l, some t, some h⟩ last
        = (.ok200, some ⟨toNumber l, toNumber t, toNumber h⟩))
    ∧ (∀ b : SensorBody, (postSensorData b last).1 = .err400 ↔
        (b.light = none ∨ b.temp = none ∨ b.humidity = none))
    ∧ (∀ b : SensorBody, (postSensorData b last).1 = .err400 →
        (postSensorData b last).2 = last)
    ∧ postSensorData ⟨some (.str "abc"), some (.num 30), some (.num 50)⟩ last
        = (.ok200, some ⟨.nan, .val 30, .val 50⟩) := by
  refine ⟨fun l t h => rfl, ?_, ?_, ?_⟩
  · intro b
    rcases b with ⟨_ | l, _ | t, _ | h⟩ <;> simp [postSensorData]
  · intro b
    rcases b with ⟨_ | l, _ | t, _ | h⟩ <;> simp [postSensorData]
  · rfl

/-- Witness for C10: a body missing its light field is rejected with the
stored reading untouched. -/
theorem sensorIngest_c10_witness :
    (postSensorData ⟨none, some (.num 1), some (.num 2)⟩
        (some ⟨.val 1, .val 2, .val 3⟩)).2 = some ⟨.val 1, .val 2, .val 3⟩ :=
  (sensorIngest_c10 (some ⟨.val 1, .val 2, .val 3⟩)).2.2.1
    ⟨none, some (.num 1), some (.num 2)⟩ rfl

end CE395
